import Mathlib

/-!
Verification of the customer-account request handlers of the
food-order-backend repository (src/controllers/CustomerController.ts).

The six handlers (CustomerSignUp, CustomerLogin, CustomerVerify,
RequestOtp, GetCustomerProfile, UpdateCustomerProfile) are embedded as
pure Lean functions.  The document store is a list of Customer records;
`findOne`/`findById`/`create`/`save` are modelled on lists.  External
collaborators (salt/password/OTP generation, password check, clock,
store-assigned id) are a record of the values and functions they supply
for one request (`Env`).  The signed token is modelled as the payload it
embeds, the input-validation library as the list of field errors it
returned for the request body, and JavaScript `parseInt` as an
`Option Int` (none for NaN).  Each handler returns the HTTP status, the
JSON body, the store after the request, and the SMS messages sent.
-/

namespace FoodOrder

/-- The Customer record (src/models, as used by the controller). -/
structure Customer where
  _id : Nat
  email : String
  password : String
  phone : String
  salt : String
  otp : Int
  otpExpiry : Int
  verified : Bool
  firstName : String
  lastName : String
  address : String
  lat : Int
  lng : Int
deriving DecidableEq, Repr

/-- Payload embedded in a signed token: `{ _id, email, verified }`. -/
structure TokenPayload where
  _id : Nat
  email : String
  verified : Bool
deriving DecidableEq, Repr

/-- `GenerateSignature(payload)`: the signing utility is an external
collaborator; the token is modelled as the payload it embeds. -/
def GenerateSignature (p : TokenPayload) : TokenPayload := p

/-- Request body of `CustomerSignUp` (`CreateCustomerInput`). -/
structure CreateCustomerInput where
  email : String
  phone : String
  password : String
deriving DecidableEq, Repr

/-- Request body of `CustomerLogin` (`CustomerLoginInput`). -/
structure CustomerLoginInput where
  email : String
  password : String
deriving DecidableEq, Repr

/-- Request body of `UpdateCustomerProfile` (`CustomerEditInput`). -/
structure CustomerEditInput where
  firstName : String
  lastName : String
  address : String
deriving DecidableEq, Repr

/-- A JSON response body: a list of field validation errors, a single
message, an auth payload `{ signature, verified, email }`, or a full
Customer record. -/
inductive Body where
  | errors (errs : List String)
  | message (msg : String)
  | auth (signature : TokenPayload) (verified : Bool) (email : String)
  | record (c : Customer)
deriving DecidableEq, Repr

/-- What one handler call produces: HTTP status, JSON body, the store
after the call, and the `(otp, phone)` SMS messages sent. -/
structure HandlerResult where
  status : Nat
  body : Body
  store : List Customer
  sms : List (Int × String)
deriving DecidableEq, Repr

/-- Values the external collaborators supply during one request:
the clock (`new Date()`), `GenerateSalt`, `GeneratePassword`,
`ValidatePassword`, `GenerateOtp`, and the store-assigned id of a
record created by `Customer.create`. -/
structure Env where
  now : Int
  genSalt : String
  genPassword : String → String → String
  validatePassword : String → String → Bool
  genOtp : Int × Int
  newId : Nat

/-- JavaScript `s.toLowerCase()`, modelled characterwise (Lean's own
`String.toLower` is the same map but does not reduce in the kernel). -/
def lowercase (s : String) : String := ⟨s.data.map Char.toLower⟩

/-- `Customer.findOne({ email: e })` on the modelled store. -/
def findOne (store : List Customer) (e : String) : Option Customer :=
  store.find? (fun c => c.email == e)

/-- `Customer.findById(id)` on the modelled store. -/
def findById (store : List Customer) (id : Nat) : Option Customer :=
  store.find? (fun c => c._id == id)

/-- `profile.save()`: writes the mutated record back over the stored
record with the same id. -/
def save (store : List Customer) (p : Customer) : List Customer :=
  store.map (fun c => if c._id == p._id then p else c)

/-- `profile.otp === parseInt(otp)` with `parseInt` modelled as
`Option Int` (`none` is NaN, which compares unequal to everything). -/
def otpMatches (stored : Int) (parsed : Option Int) : Bool :=
  match parsed with
  | some n => stored == n
  | none => false

/-- `CustomerSignUp` (CustomerController.ts lines 20-87). -/
def CustomerSignUp (env : Env) (store : List Customer)
    (body : CreateCustomerInput) (inputErrors : List String) : HandlerResult :=
  if inputErrors.length > 0 then
    ⟨400, Body.errors inputErrors, store, []⟩
  else
    match findOne store (lowercase body.email) with
    | some _ =>
        ⟨400, Body.message "This email address is already in use!", store, []⟩
    | none =>
        let salt := env.genSalt
        let userPassword := env.genPassword body.password salt
        let otp := env.genOtp.1
        let expiry := env.genOtp.2
        let createdCustomer : Customer :=
          { _id := env.newId
            email := (lowercase body.email)
            password := userPassword
            phone := body.phone
            salt := salt
            otp := otp
            otpExpiry := expiry
            firstName := ""
            lastName := ""
            address := ""
            verified := false
            lat := 0
            lng := 0 }
        let store1 := store ++ [createdCustomer]
        let signature := GenerateSignature
          { _id := createdCustomer._id
            email := createdCustomer.email
            verified := createdCustomer.verified }
        ⟨201, Body.auth signature createdCustomer.verified createdCustomer.email,
          store1, [(otp, body.phone)]⟩

/-- `CustomerLogin` (CustomerController.ts lines 89-125). -/
def CustomerLogin (env : Env) (store : List Customer)
    (body : CustomerLoginInput) (loginErrors : List String) : HandlerResult :=
  if loginErrors.length > 0 then
    ⟨400, Body.errors loginErrors, store, []⟩
  else
    match findOne store body.email with
    | some customer =>
        if env.validatePassword body.password customer.password then
          ⟨200,
            Body.auth
              (GenerateSignature
                { _id := customer._id
                  email := customer.email
                  verified := customer.verified })
              customer.verified customer.email,
            store, []⟩
        else
          ⟨400, Body.message "Invalid credentials!", store, []⟩
    | none => ⟨400, Body.message "Invalid credentials!", store, []⟩

/-- `CustomerVerify` (CustomerController.ts lines 127-165).
`user` is `req.user` from the auth middleware; `parsedOtp` is
`parseInt(req.body.otp)`. -/
def CustomerVerify (env : Env) (store : List Customer)
    (user : Option TokenPayload) (parsedOtp : Option Int) : HandlerResult :=
  match user with
  | some customer =>
      match findById store customer._id with
      | some profile =>
          if otpMatches profile.otp parsedOtp
              && decide (profile.otpExpiry ≥ env.now) then
            let updatedProfile := { profile with verified := true }
            let store1 := save store updatedProfile
            let signature := GenerateSignature
              { _id := updatedProfile._id
                email := updatedProfile.email
                verified := updatedProfile.verified }
            ⟨200,
              Body.auth signature updatedProfile.verified updatedProfile.email,
              store1, []⟩
          else
            ⟨400, Body.message "OPT verification failed!", store, []⟩
      | none => ⟨400, Body.message "OPT verification failed!", store, []⟩
  | none => ⟨400, Body.message "OPT verification failed!", store, []⟩

/-- `RequestOtp` (CustomerController.ts lines 167-193). -/
def RequestOtp (env : Env) (store : List Customer)
    (user : Option TokenPayload) : HandlerResult :=
  match user with
  | some customer =>
      match findById store customer._id with
      | some profile =>
          let otp := env.genOtp.1
          let expiry := env.genOtp.2
          let profile1 := { profile with otp := otp, otpExpiry := expiry }
          let store1 := save store profile1
          ⟨200, Body.message "OTP sent to your registered phone number.",
            store1, [(otp, profile1.phone)]⟩
      | none => ⟨400, Body.message "Error generateing OTP!", store, []⟩
  | none => ⟨400, Body.message "Error generateing OTP!", store, []⟩

/-- `GetCustomerProfile` (CustomerController.ts lines 195-210). -/
def GetCustomerProfile (store : List Customer)
    (user : Option TokenPayload) : HandlerResult :=
  match user with
  | some customer =>
      match findById store customer._id with
      | some profile => ⟨200, Body.record profile, store, []⟩
      | none => ⟨400, Body.message "Error getting user profile!", store, []⟩
  | none => ⟨400, Body.message "Error getting user profile!", store, []⟩

/-- `UpdateCustomerProfile` (CustomerController.ts lines 212-245). -/
def UpdateCustomerProfile (store : List Customer)
    (user : Option TokenPayload) (body : CustomerEditInput)
    (inputErrors : List String) : HandlerResult :=
  match user with
  | some customer =>
      match findById store customer._id with
      | some profile =>
          if inputErrors.length > 0 then
            ⟨400, Body.errors inputErrors, store, []⟩
          else
            let updatedProfile :=
              { profile with
                  firstName := body.firstName
                  lastName := body.lastName
                  address := body.address }
            let store1 := save store updatedProfile
            ⟨200, Body.record updatedProfile, store1, []⟩
      | none => ⟨400, Body.message "Error updating profile!", store, []⟩
  | none => ⟨400, Body.message "Error updating profile!", store, []⟩

/-- One request against the component, for whole-system invariants. -/
inductive Op where
  | signUp (body : CreateCustomerInput) (inputErrors : List String)
  | login (body : CustomerLoginInput) (loginErrors : List String)
  | verify (user : Option TokenPayload) (parsedOtp : Option Int)
  | requestOtp (user : Option TokenPayload)
  | getProfile (user : Option TokenPayload)
  | updateProfile (user : Option TokenPayload) (body : CustomerEditInput)
      (inputErrors : List String)

/-- Dispatch one request to its handler. -/
def runOp (env : Env) (store : List Customer) : Op → HandlerResult
  | Op.signUp b e => CustomerSignUp env store b e
  | Op.login b e => CustomerLogin env store b e
  | Op.verify u o => CustomerVerify env store u o
  | Op.requestOtp u => RequestOtp env store u
  | Op.getProfile u => GetCustomerProfile store u
  | Op.updateProfile u b e => UpdateCustomerProfile store u b e

/-! ### Store lemmas -/

/-- A record found by id carries that id. -/
theorem findById_id (store : List Customer) (id : Nat) (c : Customer)
    (h : findById store id = some c) : c._id = id := by
  have h2 := List.find?_some h
  simpa using h2

/-- Appending records does not change an existing lookup result. -/
theorem findById_append_of_some {store : List Customer} (l : List Customer)
    {id : Nat} {c : Customer} (h : findById store id = some c) :
    findById (store ++ l) id = some c := by
  unfold findById at h ⊢
  rw [List.find?_append, h]
  rfl

/-- Saving a record over an existing record with its id makes lookup by
that id return the saved record. -/
theorem findById_save_self (store : List Customer) (p c : Customer)
    (h : findById store p._id = some c) :
    findById (save store p) p._id = some p := by
  induction store generalizing c with
  | nil => simp [findById] at h
  | cons a as ih =>
    unfold findById at h ⊢
    unfold save
    simp only [List.map_cons]
    by_cases ha : a._id = p._id
    · rw [if_pos (by simp [ha]), List.find?_cons_of_pos _ (by simp)]
    · rw [List.find?_cons_of_neg _ (by simp [ha])] at h
      rw [if_neg (by simp [ha]), List.find?_cons_of_neg _ (by simp [ha])]
      exact ih c h

/-- Saving a record does not change lookups under any other id. -/
theorem findById_save_other (store : List Customer) (p : Customer) (id : Nat)
    (h : id ≠ p._id) : findById (save store p) id = findById store id := by
  have hne : ¬ p._id = id := fun hh => h hh.symm
  induction store with
  | nil => simp [findById, save]
  | cons a as ih =>
    unfold findById
    unfold save
    simp only [List.map_cons]
    by_cases ha : a._id = p._id
    · rw [if_pos (by simp [ha])]
      rw [List.find?_cons_of_neg _ (by simpa using hne),
        List.find?_cons_of_neg _ (by simpa [ha] using hne)]
      exact ih
    · rw [if_neg (by simp [ha])]
      by_cases hid : a._id = id
      · rw [List.find?_cons_of_pos _ (by simp [hid]),
          List.find?_cons_of_pos _ (by simp [hid])]
      · rw [List.find?_cons_of_neg _ (by simp [hid]),
          List.find?_cons_of_neg _ (by simp [hid])]
        exact ih

/-- A lookup under the saved record's id yields the saved record if it
yields anything. -/
theorem findById_save_self_eq (store : List Customer) (p c' : Customer)
    (h : findById (save store p) p._id = some c') : c' = p := by
  induction store with
  | nil => simp [findById, save] at h
  | cons a as ih =>
    unfold findById save at h
    simp only [List.map_cons] at h
    by_cases ha : a._id = p._id
    · rw [if_pos (by simp [ha]), List.find?_cons_of_pos _ (by simp)] at h
      exact (Option.some_inj.mp h).symm
    · rw [if_neg (by simp [ha]), List.find?_cons_of_neg _ (by simp [ha])] at h
      exact ih h

/-- After a `save`, a lookup yields either the saved record (under its
id) or exactly what it yielded before. -/
theorem findById_save_cases (store : List Customer) (p : Customer)
    (id : Nat) (c c' : Customer) (hc : findById store id = some c)
    (hc' : findById (save store p) id = some c') :
    (id = p._id ∧ c' = p) ∨ (id ≠ p._id ∧ c' = c) := by
  by_cases h : id = p._id
  · subst h
    exact Or.inl ⟨rfl, findById_save_self_eq store p c' hc'⟩
  · right
    refine ⟨h, ?_⟩
    rw [findById_save_other store p id h, hc] at hc'
    exact (Option.some_inj.mp hc').symm

/-- `CustomerLogin` never changes the store. -/
theorem login_store_eq (env : Env) (store : List Customer)
    (b : CustomerLoginInput) (e : List String) :
    (CustomerLogin env store b e).store = store := by
  unfold CustomerLogin
  by_cases he : e.length > 0
  · simp [he]
  · simp only [if_neg he]
    cases hfo : findOne store b.email with
    | some x =>
        by_cases hv : env.validatePassword b.password x.password <;>
          simp [hv]
    | none => simp

/-- `GetCustomerProfile` never changes the store. -/
theorem get_profile_store_eq (store : List Customer)
    (user : Option TokenPayload) :
    (GetCustomerProfile store user).store = store := by
  unfold GetCustomerProfile
  cases user with
  | none => rfl
  | some u => cases h : findById store u._id <;> simp [h]

/-- `CustomerSignUp` either leaves the store unchanged or appends one
record. -/
theorem signup_store_shape (env : Env) (store : List Customer)
    (b : CreateCustomerInput) (e : List String) :
    (CustomerSignUp env store b e).store = store ∨
    ∃ n, (CustomerSignUp env store b e).store = store ++ [n] := by
  unfold CustomerSignUp
  by_cases he : e.length > 0
  · simp [he]
  · simp only [if_neg he]
    cases hfo : findOne store (lowercase b.email) with
    | some x => simp
    | none => exact Or.inr ⟨_, rfl⟩

/-- `RequestOtp` either leaves the store unchanged or saves the found
profile with a fresh otp/otpExpiry pair. -/
theorem request_otp_store_shape (env : Env) (store : List Customer)
    (user : Option TokenPayload) :
    (RequestOtp env store user).store = store ∨
    ∃ u profile, user = some u ∧ findById store u._id = some profile ∧
      (RequestOtp env store user).store =
        save store
          { profile with
              otp := env.genOtp.1
              otpExpiry := env.genOtp.2 } := by
  unfold RequestOtp
  cases user with
  | none => exact Or.inl rfl
  | some u =>
      cases hfp : findById store u._id with
      | none => exact Or.inl (by simp [hfp])
      | some profile => exact Or.inr ⟨u, profile, rfl, hfp, by simp [hfp]⟩

/-- `UpdateCustomerProfile` either leaves the store unchanged or saves
the found profile with the three editable fields replaced. -/
theorem update_profile_store_shape (store : List Customer)
    (user : Option TokenPayload) (b : CustomerEditInput)
    (e : List String) :
    (UpdateCustomerProfile store user b e).store = store ∨
    ∃ u profile, user = some u ∧ findById store u._id = some profile ∧
      (UpdateCustomerProfile store user b e).store =
        save store
          { profile with
              firstName := b.firstName
              lastName := b.lastName
              address := b.address } := by
  unfold UpdateCustomerProfile
  cases user with
  | none => exact Or.inl rfl
  | some u =>
      cases hfp : findById store u._id with
      | none => exact Or.inl (by simp [hfp])
      | some profile =>
          by_cases he : e.length > 0
          · exact Or.inl (by simp [hfp, he])
          · exact Or.inr ⟨u, profile, rfl, hfp, by simp [hfp, he]⟩

/-- `CustomerVerify` either leaves the store unchanged or — exactly
when the otp matched an unexpired stored otp — saves the found profile
with verified set to true. -/
theorem verify_store_shape (env : Env) (store : List Customer)
    (user : Option TokenPayload) (parsedOtp : Option Int) :
    (CustomerVerify env store user parsedOtp).store = store ∨
    ∃ u profile, user = some u ∧ findById store u._id = some profile ∧
      otpMatches profile.otp parsedOtp = true ∧
      env.now ≤ profile.otpExpiry ∧
      (CustomerVerify env store user parsedOtp).store =
        save store { profile with verified := true } := by
  unfold CustomerVerify
  cases user with
  | none => exact Or.inl rfl
  | some u =>
      cases hfp : findById store u._id with
      | none => exact Or.inl (by simp [hfp])
      | some profile =>
          by_cases hcond : otpMatches profile.otp parsedOtp = true ∧
              env.now ≤ profile.otpExpiry
          · exact Or.inr ⟨u, profile, rfl, hfp, hcond.1, hcond.2,
              by simp [hfp, hcond.1, hcond.2, ge_iff_le]⟩
          · exact Or.inl (by
              simp only [hfp]
              rw [if_neg (by simpa [ge_iff_le] using hcond)])

/-- If two records are equal, the verified flag cannot drop nor flip. -/
theorem verified_same_of_eq (c c' : Customer) (h : c' = c) (P : Prop) :
    (c.verified = true → c'.verified = true) ∧
    (c.verified = false → c'.verified = true → P) := by
  subst h
  exact ⟨fun h => h, fun hf ht => absurd ht (by simp [hf])⟩

/-- If two records carry the same verified flag, it cannot drop nor
flip. -/
theorem verified_same_of_same (c c' : Customer)
    (h : c'.verified = c.verified) (P : Prop) :
    (c.verified = true → c'.verified = true) ∧
    (c.verified = false → c'.verified = true → P) :=
  ⟨fun ht => by rw [h, ht],
   fun hf ht => absurd ht (by rw [h, hf]; simp)⟩

/-! ### Sample data for concrete witnesses -/

/-- A concrete stored customer, not yet verified. -/
def sampleCustomer : Customer :=
  { _id := 1, email := "a@x.com", password := "pws", phone := "555", salt := "s"
    otp := 123456, otpExpiry := 100, verified := false
    firstName := "", lastName := "", address := "", lat := 0, lng := 0 }

/-- The token payload the auth middleware yields for `sampleCustomer`. -/
def sampleToken : TokenPayload :=
  { _id := 1, email := "a@x.com", verified := false }

/-- A concrete collaborator environment. -/
def sampleEnv : Env :=
  { now := 50, genSalt := "t", genPassword := fun p s => p ++ s
    validatePassword := fun p h => (p ++ "s") == h
    genOtp := (654321, 200), newId := 2 }

/-! ### Claim theorems -/

/-- C1: for an authenticated caller with an existing profile, VerifyOtp
returns status 200 (setting `verified` to true and returning a fresh
signed token) iff the submitted otp, parsed as an integer, equals the
stored otp and the current time is at or before the stored otpExpiry;
in every other case it returns status 400 with the generic message and
the store — hence the stored verified flag — is unchanged. -/
theorem verify_success_iff (env : Env) (store : List Customer)
    (u : TokenPayload) (parsedOtp : Option Int) (profile : Customer)
    (hp : findById store u._id = some profile) :
    ((CustomerVerify env store (some u) parsedOtp).status = 200 ↔
      otpMatches profile.otp parsedOtp = true ∧ env.now ≤ profile.otpExpiry) ∧
    (otpMatches profile.otp parsedOtp = true ∧ env.now ≤ profile.otpExpiry →
      (CustomerVerify env store (some u) parsedOtp).body =
        Body.auth
          (GenerateSignature
            { _id := u._id, email := profile.email, verified := true })
          true profile.email ∧
      findById (CustomerVerify env store (some u) parsedOtp).store u._id =
        some { profile with verified := true }) ∧
    (¬ (otpMatches profile.otp parsedOtp = true ∧
        env.now ≤ profile.otpExpiry) →
      (CustomerVerify env store (some u) parsedOtp).status = 400 ∧
      (CustomerVerify env store (some u) parsedOtp).body =
        Body.message "OPT verification failed!" ∧
      (CustomerVerify env store (some u) parsedOtp).store = store) := by
  have hid : profile._id = u._id := findById_id store u._id profile hp
  have hiff : (otpMatches profile.otp parsedOtp
      && decide (profile.otpExpiry ≥ env.now)) = true ↔
      (otpMatches profile.otp parsedOtp = true ∧
        env.now ≤ profile.otpExpiry) := by
    simp [ge_iff_le]
  by_cases hcond : otpMatches profile.otp parsedOtp = true ∧
      env.now ≤ profile.otpExpiry
  · have hb := hiff.mpr hcond
    have hsaved : findById (save store { profile with verified := true })
        u._id = some { profile with verified := true } := by
      have : ({ profile with verified := true } : Customer)._id = u._id := hid
      rw [← this]
      exact findById_save_self store _ profile (by rw [this, hp])
    refine ⟨?_, fun _ => ⟨?_, ?_⟩, fun hn => absurd hcond hn⟩
    · simp [CustomerVerify, hp, hb, hcond]
    · simp [CustomerVerify, hp, hb, GenerateSignature, hid]
    · simpa [CustomerVerify, hp, hb] using hsaved
  · have hb : (otpMatches profile.otp parsedOtp
        && decide (profile.otpExpiry ≥ env.now)) = false := by
      cases hv : (otpMatches profile.otp parsedOtp
          && decide (profile.otpExpiry ≥ env.now)) with
      | false => rfl
      | true => exact absurd (hiff.mp hv) hcond
    refine ⟨?_, fun hc => absurd hc hcond, fun _ => ?_⟩
    · simp [CustomerVerify, hp, hb, hcond]
    · simp [CustomerVerify, hp, hb]

/-- C1 witness: on the sample store, verifying with the right code
(123456) before expiry returns 200, and with a wrong code (7) falls in
the failure branch: 400, generic message, store untouched. -/
theorem verify_success_iff_witness :
    (CustomerVerify sampleEnv [sampleCustomer] (some sampleToken)
      (some 123456)).status = 200 ∧
    ((CustomerVerify sampleEnv [sampleCustomer] (some sampleToken)
      (some 7)).status = 400 ∧
     (CustomerVerify sampleEnv [sampleCustomer] (some sampleToken)
      (some 7)).store = [sampleCustomer]) :=
  ⟨(verify_success_iff sampleEnv [sampleCustomer] sampleToken (some 123456)
      sampleCustomer (by decide)).1.mpr (by decide),
   ((verify_success_iff sampleEnv [sampleCustomer] sampleToken (some 7)
      sampleCustomer (by decide)).2.2 (by decide)).1,
   ((verify_success_iff sampleEnv [sampleCustomer] sampleToken (some 7)
      sampleCustomer (by decide)).2.2 (by decide)).2.2⟩

/-- C2: if a stored Customer already has the lowercased input email,
SignUp (with a shape-valid body, modelled by the empty error list)
returns 400 with the conflict message and leaves the store unchanged;
moreover for any validator outcome the status is 400 and no record is
created. -/
theorem signup_conflict (env : Env) (store : List Customer)
    (body : CreateCustomerInput) (existing : Customer)
    (hex : findOne store (lowercase body.email) = some existing) :
    CustomerSignUp env store body [] =
      ⟨400, Body.message "This email address is already in use!",
        store, []⟩ ∧
    ∀ inputErrors, (CustomerSignUp env store body inputErrors).store = store ∧
      (CustomerSignUp env store body inputErrors).status = 400 := by
  constructor
  · simp [CustomerSignUp, hex]
  · intro errs
    cases errs with
    | nil => simp [CustomerSignUp, hex]
    | cons e es => simp [CustomerSignUp]

/-- Signup request body whose lowercased email collides with
`sampleCustomer`. -/
def sampleSignUpBody : CreateCustomerInput :=
  { email := "A@x.com", phone := "555", password := "pw" }

/-- C2 witness: signing up "A@x.com" against a store holding
"a@x.com" returns the conflict response and the untouched store. -/
theorem signup_conflict_witness :
    CustomerSignUp sampleEnv [sampleCustomer] sampleSignUpBody [] =
      ⟨400, Body.message "This email address is already in use!",
        [sampleCustomer], []⟩ :=
  (signup_conflict sampleEnv [sampleCustomer] sampleSignUpBody sampleCustomer
    (by decide)).1

/-- C5: for a shape-valid signup whose lowercased email is fresh,
SignUp appends a Customer record with the lowercased email,
verified = false, empty firstName/lastName/address, lat = lng = 0 and
the freshly generated otp/otpExpiry, sends the otp by SMS, and returns
201 with the signed token plus email and verified flag. -/
theorem signup_fresh_creates (env : Env) (store : List Customer)
    (body : CreateCustomerInput)
    (hfree : findOne store (lowercase body.email) = none) :
    CustomerSignUp env store body [] =
      ⟨201,
        Body.auth
          (GenerateSignature
            { _id := env.newId, email := (lowercase body.email),
              verified := false })
          false (lowercase body.email),
        store ++
          [{ _id := env.newId
             email := (lowercase body.email)
             password := env.genPassword body.password env.genSalt
             phone := body.phone
             salt := env.genSalt
             otp := env.genOtp.1
             otpExpiry := env.genOtp.2
             firstName := ""
             lastName := ""
             address := ""
             verified := false
             lat := 0
             lng := 0 }],
        [(env.genOtp.1, body.phone)]⟩ := by
  simp [CustomerSignUp, hfree]

/-- Signup request body with an email not in the sample store. -/
def sampleFreshBody : CreateCustomerInput :=
  { email := "B@y.com", phone := "777", password := "pw" }

/-- C5 witness: a fresh signup on the sample store returns 201 and the
store now holds the expected new record under the assigned id 2. -/
theorem signup_fresh_creates_witness :
    (CustomerSignUp sampleEnv [sampleCustomer] sampleFreshBody []).status
      = 201 ∧
    findById (CustomerSignUp sampleEnv [sampleCustomer]
        sampleFreshBody []).store 2 =
      some { _id := 2, email := "b@y.com", password := "pwt",
             phone := "777", salt := "t", otp := 654321, otpExpiry := 200,
             firstName := "", lastName := "", address := "",
             verified := false, lat := 0, lng := 0 } := by
  rw [signup_fresh_creates sampleEnv [sampleCustomer] sampleFreshBody
    (by decide)]
  decide

/-- C3: Login (with a shape-valid body) looks the Customer up by the
exact, non-lowercased email.  If a record matches and the password check
passes, it returns 200 with a signed token embedding the stored id,
email and verified flag; if the password check fails or no record
matches, it returns 400 with the single generic message
"Invalid credentials!"; the store is never changed. -/
theorem login_spec (env : Env) (store : List Customer)
    (body : CustomerLoginInput) :
    (∀ c, findOne store body.email = some c →
      (env.validatePassword body.password c.password = true →
        CustomerLogin env store body [] =
          ⟨200,
            Body.auth
              (GenerateSignature
                { _id := c._id, email := c.email, verified := c.verified })
              c.verified c.email,
            store, []⟩) ∧
      (env.validatePassword body.password c.password = false →
        CustomerLogin env store body [] =
          ⟨400, Body.message "Invalid credentials!", store, []⟩)) ∧
    (findOne store body.email = none →
      CustomerLogin env store body [] =
        ⟨400, Body.message "Invalid credentials!", store, []⟩) := by
  refine ⟨fun c hc => ⟨fun hv => ?_, fun hv => ?_⟩, fun hn => ?_⟩
  · simp [CustomerLogin, hc, hv]
  · simp [CustomerLogin, hc, hv]
  · simp [CustomerLogin, hn]

/-- C3 witness: on the sample store, the right password logs in with a
token embedding the stored record, the wrong password gets the generic
message, and an unknown email gets the generic message. -/
theorem login_spec_witness :
    CustomerLogin sampleEnv [sampleCustomer]
        { email := "a@x.com", password := "pw" } [] =
      ⟨200,
        Body.auth
          (GenerateSignature
            { _id := 1, email := "a@x.com", verified := false })
          false "a@x.com",
        [sampleCustomer], []⟩ ∧
    CustomerLogin sampleEnv [sampleCustomer]
        { email := "a@x.com", password := "zz" } [] =
      ⟨400, Body.message "Invalid credentials!", [sampleCustomer], []⟩ ∧
    CustomerLogin sampleEnv [sampleCustomer]
        { email := "A@x.com", password := "pw" } [] =
      ⟨400, Body.message "Invalid credentials!", [sampleCustomer], []⟩ :=
  ⟨((login_spec sampleEnv [sampleCustomer]
      { email := "a@x.com", password := "pw" }).1 sampleCustomer
      (by decide)).1 (by decide),
   ((login_spec sampleEnv [sampleCustomer]
      { email := "a@x.com", password := "zz" }).1 sampleCustomer
      (by decide)).2 (by decide),
   (login_spec sampleEnv [sampleCustomer]
      { email := "A@x.com", password := "pw" }).2 (by decide)⟩

/-- C6: for an authenticated caller with an existing profile and a
shape-valid body, UpdateProfile overwrites firstName, lastName and
address with the submitted values unconditionally (empty strings
included, no partial merge), persists the record, and returns the
updated record with status 200. -/
theorem update_profile_overwrites (store : List Customer)
    (u : TokenPayload) (body : CustomerEditInput) (profile : Customer)
    (hp : findById store u._id = some profile) :
    UpdateCustomerProfile store (some u) body [] =
      ⟨200,
        Body.record
          { profile with
              firstName := body.firstName
              lastName := body.lastName
              address := body.address },
        save store
          { profile with
              firstName := body.firstName
              lastName := body.lastName
              address := body.address },
        []⟩ ∧
    findById (UpdateCustomerProfile store (some u) body []).store u._id =
      some
        { profile with
            firstName := body.firstName
            lastName := body.lastName
            address := body.address } := by
  have hid : profile._id = u._id := findById_id store u._id profile hp
  have h1 : ({ profile with
      firstName := body.firstName
      lastName := body.lastName
      address := body.address } :
      Customer)._id = u._id := hid
  constructor
  · simp [UpdateCustomerProfile, hp]
  · simp only [UpdateCustomerProfile, hp]
    rw [if_neg (by simp : ¬ (([] : List String).length > 0))]
    rw [← h1]
    exact findById_save_self store _ profile (by rw [h1, hp])

/-- C6 witness: on the sample store, an update whose firstName is the
empty string still overwrites all three fields and returns 200. -/
theorem update_profile_overwrites_witness :
    findById (UpdateCustomerProfile [sampleCustomer] (some sampleToken)
        { firstName := "", lastName := "N", address := "Addr" } []).store 1 =
      some
        { sampleCustomer with
            firstName := ""
            lastName := "N"
            address := "Addr" } ∧
    (UpdateCustomerProfile [sampleCustomer] (some sampleToken)
        { firstName := "", lastName := "N", address := "Addr" } []).status
      = 200 := by
  refine ⟨(update_profile_overwrites [sampleCustomer] sampleToken
    { firstName := "", lastName := "N", address := "Addr" } sampleCustomer
    (by decide)).2, ?_⟩
  rw [(update_profile_overwrites [sampleCustomer] sampleToken
    { firstName := "", lastName := "N", address := "Addr" } sampleCustomer
    (by decide)).1]

/-- C9: UpdateProfile looks the profile up before validating the body:
when the authenticated caller's profile lookup finds no record, the
handler returns the generic 400 message for every validator outcome,
so a field-error list is never returned in that case. -/
theorem update_profile_lookup_first (store : List Customer)
    (u : TokenPayload) (body : CustomerEditInput)
    (inputErrors : List String)
    (hp : findById store u._id = none) :
    UpdateCustomerProfile store (some u) body inputErrors =
      ⟨400, Body.message "Error updating profile!", store, []⟩ := by
  simp [UpdateCustomerProfile, hp]

/-- C9 witness: an unknown caller id with a body the validator
rejected still gets the generic message, not the error list. -/
theorem update_profile_lookup_first_witness :
    UpdateCustomerProfile [sampleCustomer]
        (some { _id := 99, email := "z@z.com", verified := false })
        { firstName := "", lastName := "", address := "" }
        ["firstName must be a string"] =
      ⟨400, Body.message "Error updating profile!", [sampleCustomer], []⟩ :=
  update_profile_lookup_first [sampleCustomer]
    { _id := 99, email := "z@z.com", verified := false }
    { firstName := "", lastName := "", address := "" }
    ["firstName must be a string"] (by decide)

/-- C10: when the authenticated caller's profile lookup succeeds,
GetProfile returns the full Customer record unmodified (its password
hash, salt and otp fields included, since `Body.record` carries the
whole record) with status 200; when the caller is unauthenticated or
the lookup finds nothing, it returns 400 with the generic message. -/
theorem get_profile_spec (store : List Customer)
    (user : Option TokenPayload) :
    (∀ u profile, user = some u → findById store u._id = some profile →
      GetCustomerProfile store user =
        ⟨200, Body.record profile, store, []⟩) ∧
    (∀ u, user = some u → findById store u._id = none →
      GetCustomerProfile store user =
        ⟨400, Body.message "Error getting user profile!", store, []⟩) ∧
    (user = none →
      GetCustomerProfile store user =
        ⟨400, Body.message "Error getting user profile!", store, []⟩) := by
  refine ⟨fun u profile hu hp => ?_, fun u hu hp => ?_, fun hu => ?_⟩
  · subst hu; simp [GetCustomerProfile, hp]
  · subst hu; simp [GetCustomerProfile, hp]
  · subst hu; simp [GetCustomerProfile]

/-- C10 witness: the sample caller gets the whole sample record back;
an unauthenticated call gets the generic 400. -/
theorem get_profile_spec_witness :
    GetCustomerProfile [sampleCustomer] (some sampleToken) =
      ⟨200, Body.record sampleCustomer, [sampleCustomer], []⟩ ∧
    GetCustomerProfile [sampleCustomer] none =
      ⟨400, Body.message "Error getting user profile!",
        [sampleCustomer], []⟩ :=
  ⟨(get_profile_spec [sampleCustomer] (some sampleToken)).1 sampleToken
      sampleCustomer rfl (by decide),
   (get_profile_spec [sampleCustomer] none).2.2 rfl⟩

/-- C8: for an authenticated caller with an existing profile,
RequestOtp persists the freshly generated otp/otpExpiry pair on the
profile, sends the new otp to the profile's phone, and returns 200 with
the confirmation message; when the caller is unauthenticated or the
lookup finds nothing, it returns 400 with the generic message, the
store is unchanged and no SMS is sent. -/
theorem request_otp_spec (env : Env) (store : List Customer)
    (user : Option TokenPayload) :
    (∀ u profile, user = some u → findById store u._id = some profile →
      RequestOtp env store user =
        ⟨200, Body.message "OTP sent to your registered phone number.",
          save store
            { profile with
                otp := env.genOtp.1
                otpExpiry := env.genOtp.2 },
          [(env.genOtp.1, profile.phone)]⟩ ∧
      findById (RequestOtp env store user).store u._id =
        some
          { profile with
              otp := env.genOtp.1
              otpExpiry := env.genOtp.2 }) ∧
    (∀ u, user = some u → findById store u._id = none →
      RequestOtp env store user =
        ⟨400, Body.message "Error generateing OTP!", store, []⟩) ∧
    (user = none →
      RequestOtp env store user =
        ⟨400, Body.message "Error generateing OTP!", store, []⟩) := by
  refine ⟨fun u profile hu hp => ?_, fun u hu hp => ?_, fun hu => ?_⟩
  · subst hu
    have hid : profile._id = u._id := findById_id store u._id profile hp
    have h1 : ({ profile with
        otp := env.genOtp.1
        otpExpiry := env.genOtp.2 } : Customer)._id = u._id := hid
    constructor
    · simp [RequestOtp, hp]
    · simp only [RequestOtp, hp]
      rw [← h1]
      exact findById_save_self store _ profile (by rw [h1, hp])
  · subst hu
    simp [RequestOtp, hp]
  · subst hu
    simp [RequestOtp]

/-- C8 witness: the sample caller gets a new otp 654321 with expiry 200
persisted and sent to phone "555"; an unauthenticated call gets the
generic 400 and no SMS. -/
theorem request_otp_spec_witness :
    RequestOtp sampleEnv [sampleCustomer] (some sampleToken) =
      ⟨200, Body.message "OTP sent to your registered phone number.",
        [{ sampleCustomer with otp := 654321, otpExpiry := 200 }],
        [(654321, "555")]⟩ ∧
    RequestOtp sampleEnv [sampleCustomer] none =
      ⟨400, Body.message "Error generateing OTP!", [sampleCustomer], []⟩ := by
  constructor
  · rw [((request_otp_spec sampleEnv [sampleCustomer]
      (some sampleToken)).1 sampleToken sampleCustomer rfl (by decide)).1]
    decide
  · exact (request_otp_spec sampleEnv [sampleCustomer] none).2.2 rfl

/-- C7: a successful VerifyOtp mutates only the verified field: the
stored record becomes the old record with verified set to true (otp,
otpExpiry and every other field unchanged), records under other ids are
untouched, and a second VerifyOtp with the same code at any time still
at or before the unchanged expiry again returns status 200. -/
theorem verify_frame (env : Env) (store : List Customer)
    (u : TokenPayload) (parsedOtp : Option Int) (profile : Customer)
    (hp : findById store u._id = some profile)
    (hotp : otpMatches profile.otp parsedOtp = true)
    (hexp : env.now ≤ profile.otpExpiry) :
    findById (CustomerVerify env store (some u) parsedOtp).store u._id =
      some { profile with verified := true } ∧
    (∀ id, id ≠ u._id →
      findById (CustomerVerify env store (some u) parsedOtp).store id =
        findById store id) ∧
    (∀ env2 : Env, env2.now ≤ profile.otpExpiry →
      (CustomerVerify env2
        (CustomerVerify env store (some u) parsedOtp).store
        (some u) parsedOtp).status = 200) := by
  have hid : profile._id = u._id := findById_id store u._id profile hp
  have h1 : ({ profile with verified := true } : Customer)._id = u._id := hid
  have hsaved : findById (save store { profile with verified := true })
      u._id = some { profile with verified := true } := by
    rw [← h1]
    exact findById_save_self store _ profile (by rw [h1, hp])
  have hst : (CustomerVerify env store (some u) parsedOtp).store =
      save store { profile with verified := true } := by
    simp [CustomerVerify, hp, hotp, hexp, ge_iff_le]
  refine ⟨?_, ?_, ?_⟩
  · rw [hst]; exact hsaved
  · intro id hne
    rw [hst]
    exact findById_save_other store _ id (by rw [h1]; exact hne)
  · intro env2 hexp2
    have hp2 : findById (CustomerVerify env store (some u) parsedOtp).store
        u._id = some { profile with verified := true } := by
      rw [hst]; exact hsaved
    generalize hS : (CustomerVerify env store (some u) parsedOtp).store = S2
      at hp2 ⊢
    simp [CustomerVerify, hp2, hotp, hexp2, ge_iff_le]

/-- C7 witness: after a successful verification on the sample store the
record keeps otp 123456 and expiry 100 with verified now true, and
re-verifying with the same code before the expiry returns 200 again. -/
theorem verify_frame_witness :
    findById (CustomerVerify sampleEnv [sampleCustomer] (some sampleToken)
        (some 123456)).store 1 =
      some { sampleCustomer with verified := true } ∧
    (CustomerVerify sampleEnv
      (CustomerVerify sampleEnv [sampleCustomer] (some sampleToken)
        (some 123456)).store
      (some sampleToken) (some 123456)).status = 200 :=
  ⟨(verify_frame sampleEnv [sampleCustomer] sampleToken (some 123456)
      sampleCustomer (by decide) (by decide) (by decide)).1,
   (verify_frame sampleEnv [sampleCustomer] sampleToken (some 123456)
      sampleCustomer (by decide) (by decide) (by decide)).2.2 sampleEnv
      (by decide)⟩

/-- C4: across every operation of the component, a stored record's
verified flag never goes from true back to false, and it goes from
false to true only on a VerifyOtp call authenticated as that record's
id whose submitted code matches the stored otp while the stored expiry
has not elapsed. -/
theorem verified_one_way (env : Env) (op : Op) (store : List Customer)
    (id : Nat) (c c' : Customer)
    (hc : findById store id = some c)
    (hc' : findById (runOp env store op).store id = some c') :
    (c.verified = true → c'.verified = true) ∧
    (c.verified = false → c'.verified = true →
      ∃ u parsedOtp, op = Op.verify (some u) parsedOtp ∧ u._id = id ∧
        otpMatches c.otp parsedOtp = true ∧ env.now ≤ c.otpExpiry) := by
  cases op with
  | signUp b e =>
      rcases signup_store_shape env store b e with hs | ⟨n, hs⟩
      · rw [show runOp env store (Op.signUp b e) = CustomerSignUp env store b e
          from rfl, hs, hc] at hc'
        exact verified_same_of_eq c c' (Option.some_inj.mp hc').symm _
      · rw [show runOp env store (Op.signUp b e) = CustomerSignUp env store b e
          from rfl, hs, findById_append_of_some [n] hc] at hc'
        exact verified_same_of_eq c c' (Option.some_inj.mp hc').symm _
  | login b e =>
      rw [show runOp env store (Op.login b e) = CustomerLogin env store b e
        from rfl, login_store_eq env store b e, hc] at hc'
      exact verified_same_of_eq c c' (Option.some_inj.mp hc').symm _
  | getProfile user =>
      rw [show runOp env store (Op.getProfile user) =
        GetCustomerProfile store user from rfl,
        get_profile_store_eq store user, hc] at hc'
      exact verified_same_of_eq c c' (Option.some_inj.mp hc').symm _
  | requestOtp user =>
      rcases request_otp_store_shape env store user with hs |
        ⟨u, profile, hu, hfp, hs⟩
      · rw [show runOp env store (Op.requestOtp user) =
          RequestOtp env store user from rfl, hs, hc] at hc'
        exact verified_same_of_eq c c' (Option.some_inj.mp hc').symm _
      · rw [show runOp env store (Op.requestOtp user) =
          RequestOtp env store user from rfl, hs] at hc'
        rcases findById_save_cases store _ id c c' hc hc' with
          ⟨hid, hcp⟩ | ⟨_, hcp⟩
        · have hpid : profile._id = u._id := findById_id store u._id profile hfp
          have hcprofile : c = profile := by
            have : findById store u._id = some c := by
              rw [← show id = u._id from hid.trans hpid]; exact hc
            rw [hfp] at this
            exact (Option.some_inj.mp this).symm
          refine verified_same_of_same c c' ?_ _
          rw [hcp, hcprofile]
        · exact verified_same_of_same c c' (by rw [hcp]) _
  | updateProfile user b e =>
      rcases update_profile_store_shape store user b e with hs |
        ⟨u, profile, hu, hfp, hs⟩
      · rw [show runOp env store (Op.updateProfile user b e) =
          UpdateCustomerProfile store user b e from rfl, hs, hc] at hc'
        exact verified_same_of_eq c c' (Option.some_inj.mp hc').symm _
      · rw [show runOp env store (Op.updateProfile user b e) =
          UpdateCustomerProfile store user b e from rfl, hs] at hc'
        rcases findById_save_cases store _ id c c' hc hc' with
          ⟨hid, hcp⟩ | ⟨_, hcp⟩
        · have hpid : profile._id = u._id := findById_id store u._id profile hfp
          have hcprofile : c = profile := by
            have : findById store u._id = some c := by
              rw [← show id = u._id from hid.trans hpid]; exact hc
            rw [hfp] at this
            exact (Option.some_inj.mp this).symm
          refine verified_same_of_same c c' ?_ _
          rw [hcp, hcprofile]
        · exact verified_same_of_same c c' (by rw [hcp]) _
  | verify user parsedOtp =>
      rcases verify_store_shape env store user parsedOtp with hs |
        ⟨u, profile, hu, hfp, hotp, hexp, hs⟩
      · rw [show runOp env store (Op.verify user parsedOtp) =
          CustomerVerify env store user parsedOtp from rfl, hs, hc] at hc'
        exact verified_same_of_eq c c' (Option.some_inj.mp hc').symm _
      · rw [show runOp env store (Op.verify user parsedOtp) =
          CustomerVerify env store user parsedOtp from rfl, hs] at hc'
        rcases findById_save_cases store _ id c c' hc hc' with
          ⟨hid, hcp⟩ | ⟨_, hcp⟩
        · have hpid : profile._id = u._id := findById_id store u._id profile hfp
          have hidu : id = u._id := hid.trans hpid
          have hcprofile : c = profile := by
            have : findById store u._id = some c := by
              rw [← hidu]; exact hc
            rw [hfp] at this
            exact (Option.some_inj.mp this).symm
          constructor
          · intro _
            rw [hcp]
          · intro _ _
            exact ⟨u, parsedOtp, by rw [hu], hidu.symm,
              by rw [hcprofile]; exact hotp,
              by rw [hcprofile]; exact hexp⟩
        · exact verified_same_of_same c c' (by rw [hcp]) _

/-- C4 witness: on the sample store the one false→true transition is
produced exactly by the successful verify operation, and the theorem
exhibits the matching otp and unexpired expiry behind it. -/
theorem verified_one_way_witness :
    ∃ u parsedOtp,
      Op.verify (some sampleToken) (some 123456) =
        Op.verify (some u) parsedOtp ∧
      u._id = 1 ∧ otpMatches sampleCustomer.otp parsedOtp = true ∧
      sampleEnv.now ≤ sampleCustomer.otpExpiry :=
  (verified_one_way sampleEnv (Op.verify (some sampleToken) (some 123456))
    [sampleCustomer] 1 sampleCustomer
    { sampleCustomer with verified := true }
    (by decide) (by decide)).2 (by decide) (by decide)

end FoodOrder
